import Mathlib

/-!
Verification development for the live balance streaming subsystem of the
helius-demo client (`src/screens/LiveBalanceScreen.tsx`, reconnecting variant,
together with `src/services/helius.ts`).

The component is an event-driven WebSocket session.  We embed it shallowly:

* JSON values delivered by the transport are modelled by `JsValue`, with
  JavaScript property-access semantics (`getField`: accessing a property of
  `null`/`undefined` throws a TypeError; a missing key yields `undefined`)
  and JavaScript truthiness (`truthy`).  `JSON.parse` failure is modelled by
  delivering `none` instead of `some value`.
* React component state (`useState`) and the parallel refs (`useRef`) are
  collected in one record `SessionState`; each event handler becomes a pure
  function `SessionState → SessionState × List Effect`, where `Effect`
  records the outward-visible actions (network sends, socket open/close,
  timer scheduling/cancellation).
* One React artifact is modelled explicitly because it changes observable
  behaviour: `attemptReconnect` reads the `reconnectAttempts` *state*
  variable (not a ref) from the render closure that created the socket
  chain, so the value it sees is the snapshot captured when streaming was
  started, not the current counter.  The snapshot is carried in the
  `snapAttempts` field; the functional update
  `setReconnectAttempts (prev => prev + 1)` acts on the true counter.
* `validateSolanaAddress` delegates to the external `@solana/web3.js`
  `PublicKey` constructor; that external check is modelled as the spec
  describes it (and as the library documents it): the string must be
  base58-decodable to exactly 32 bytes.
-/

/-- JavaScript/JSON values as delivered by the message transport. -/
inductive JsValue where
  | vNull
  | vUndefined
  | vBool (b : Bool)
  | vNum (n : Int)
  | vStr (s : String)
  | vObj (fields : List (String × JsValue))

/-- JavaScript runtime errors that can escape the `onmessage` handler:
`parseError` models the SyntaxError thrown by `JSON.parse` on unparseable
input, `typeError` the TypeError thrown by property access on
`null`/`undefined`. -/
inductive JsError where
  | parseError
  | typeError
deriving DecidableEq, Repr

/-- JavaScript property access `v.k`: throws TypeError on `null`/`undefined`,
yields the field on an object (or `undefined` when the key is absent), and
yields `undefined` on other primitives. -/
def JsValue.getField : JsValue → String → Except JsError JsValue
  | .vNull, _ => .error .typeError
  | .vUndefined, _ => .error .typeError
  | .vObj fields, k =>
      .ok (match fields.lookup k with
           | some v => v
           | none => .vUndefined)
  | _, _ => .ok .vUndefined

/-- JavaScript truthiness. -/
def JsValue.truthy : JsValue → Bool
  | .vNull => false
  | .vUndefined => false
  | .vBool b => b
  | .vNum n => !(n == 0)
  | .vStr s => !(s == "")
  | .vObj _ => true

/-- Strict equality `v === n` against a number literal. -/
def JsValue.eqNum : JsValue → Int → Bool
  | .vNum m, n => m == n
  | _, _ => false

/-- Strict equality `v === s` against a string literal. -/
def JsValue.eqStr : JsValue → String → Bool
  | .vStr a, b => a == b
  | _, _ => false

/-- Numeric view of a value: `some n` for a number, `none` for everything
else (where JavaScript arithmetic would produce NaN / keep `undefined`). -/
def JsValue.asInt : JsValue → Option Int
  | .vNum n => some n
  | _ => none

/-- One observed balance state, `BalanceUpdate` of `src/types/index.ts`
(`timestamp`, `balance` in SOL, `lamports`, optional `slot`).  `balance` is
`Option ℚ` and `lamports`/`slot` are `Option Int`: `none` stands for the
non-numeric values (`undefined`/NaN) JavaScript would propagate when a
notification carries a non-numeric field, and in `slot` also for the absent
field of the seed update. -/
structure BalanceUpdate where
  timestamp : Nat
  balance : Option ℚ
  lamports : Option Int
  slot : Option Int
deriving DecidableEq, Repr

/-- `lamportsToSol` of `src/services/helius.ts`: division by
`LAMPORTS_PER_SOL = 10^9`, taken over ℚ (exact arithmetic in place of the
JavaScript double). -/
def lamportsToSol (lamports : Int) : ℚ :=
  (lamports : ℚ) / 1000000000

/-- The `connectionStatus` React state. -/
inductive ConnStatus where
  | disconnected
  | connecting
  | connected
deriving DecidableEq, Repr

/-- Outward-visible actions of the session: network requests, socket
management and timer management. -/
inductive Effect where
  | fetchBalance (address : String)
  | openWs (address : String)
  | sendSubscribe (address : String)
  | sendUnsubscribe (subscriptionId : JsValue)
  | sendKeepalive
  | closeWs
  | clearPing
  | clearReconnect
  | setPingTimer
  | scheduleReconnect (delayMs : Nat)

/-- The component's mutable state: the `useState` variables and the
`useRef` mirrors of `LiveBalanceScreen`, plus bookkeeping for the platform
objects (`wsCanOpen`: the current socket is still CONNECTING and may fire
`onopen`; `wsOpen`: `readyState === OPEN`; `startPending`: the promise
returned by `subscribeToAccountUpdates` to `handleStartStreaming` is still
awaited; `snapAttempts`: the render-closure snapshot of `reconnectAttempts`
read by `attemptReconnect`, see the module comment). -/
structure SessionState where
  isStreaming : Bool
  currentBalance : Option Int
  balanceUpdates : List BalanceUpdate
  isLoading : Bool
  connectionStatus : ConnStatus
  reconnectAttempts : Nat
  subscriptionId : Option JsValue
  ws : Bool
  wsAddr : String
  wsCanOpen : Bool
  wsOpen : Bool
  pingPending : Bool
  reconnectPending : Bool
  currentAddress : String
  isIntentionalClose : Bool
  snapAttempts : Nat
  startPending : Bool

/-- The freshly mounted component. -/
def initState : SessionState where
  isStreaming := false
  currentBalance := none
  balanceUpdates := []
  isLoading := false
  connectionStatus := .disconnected
  reconnectAttempts := 0
  subscriptionId := none
  ws := false
  wsAddr := ""
  wsCanOpen := false
  wsOpen := false
  pingPending := false
  reconnectPending := false
  currentAddress := ""
  isIntentionalClose := false
  snapAttempts := 0
  startPending := false

/-! Base58 public-key format validation (`validateSolanaAddress` delegates
to the external `new PublicKey(address)`, which decodes base58 and requires
exactly 32 bytes). -/

/-- The Bitcoin base58 alphabet used by Solana addresses. -/
def base58Alphabet : List Char :=
  "123456789ABCDEFGHJKLMNPQRSTUVWXYZabcdefghijkmnopqrstuvwxyz".toList

/-- Digit value of one base58 character, `none` if the character is not in
the alphabet. -/
def base58CharValue (c : Char) : Option Nat :=
  base58Alphabet.findIdx? (· == c)

/-- Big-endian byte expansion of a natural number (empty for 0), producing
at most `fuel` bytes; structural recursion on the fuel keeps the function
kernel-reducible. -/
def natToBytesAux : Nat → Nat → List Nat
  | 0, _ => []
  | _, 0 => []
  | fuel + 1, n => natToBytesAux fuel (n / 256) ++ [n % 256]

/-- Base58 decoding: each leading `'1'` is one leading zero byte, the rest
is the big-endian expansion of the accumulated value.  A string of `k`
digits encodes a value below `58^k < 256^k`, so `k` bytes of fuel always
suffice. -/
def decodeBase58 (s : String) : Option (List Nat) :=
  match s.toList.mapM base58CharValue with
  | none => none
  | some digits =>
      let zeros := (digits.takeWhile (· == 0)).length
      let value := digits.foldl (fun acc d => acc * 58 + d) 0
      some (List.replicate zeros 0 ++ natToBytesAux digits.length value)

/-- `validateSolanaAddress` of `src/services/helius.ts`: `new
PublicKey(address)` succeeds exactly when the string decodes under base58 to
a 32-byte key. -/
def validateSolanaAddress (address : String) : Bool :=
  match decodeBase58 address with
  | none => false
  | some bytes => bytes.length == 32

/-! The `ws.onmessage` handler (lines 577-615 of the reconnecting variant).
Each JavaScript statement that can throw is an `Except` step; the handler
mutates no state before its last possible throw point in every branch, so
an escaping exception leaves the component state untouched (this is what
`deliverMessage` captures). -/

/-- Continuation of the `onmessage` handler after the
subscription-confirmation check: the keepalive filter (`data.id === 999`)
and the `accountNotification` branch.  Field accesses follow the source
order: `data.params.result.value`, then `data.params.result.context.slot`,
then the `if (accountInfo)` truthiness test. -/
def wsOnMessageTail (s : SessionState) (data idv : JsValue) (now : Nat) :
    Except JsError (SessionState × List BalanceUpdate) :=
  if idv.eqNum 999 then .ok (s, [])
  else
    match data.getField "method" with
    | .error e => .error e
    | .ok methodv =>
      if methodv.eqStr "accountNotification" then
        match data.getField "params" with
        | .error e => .error e
        | .ok paramsv =>
          match paramsv.getField "result" with
          | .error e => .error e
          | .ok resultv =>
            match resultv.getField "value" with
            | .error e => .error e
            | .ok valuev =>
              match resultv.getField "context" with
              | .error e => .error e
              | .ok contextv =>
                match contextv.getField "slot" with
                | .error e => .error e
                | .ok slotv =>
                  if valuev.truthy then
                    match valuev.getField "lamports" with
                    | .error e => .error e
                    | .ok lamportsv =>
                      let lam := lamportsv.asInt
                      let u : BalanceUpdate :=
                        { timestamp := now
                          balance := lam.map lamportsToSol
                          lamports := lam
                          slot := slotv.asInt }
                      .ok ({ s with currentBalance := lam,
                                    balanceUpdates := s.balanceUpdates ++ [u] },
                           [u])
                  else .ok (s, [])
      else .ok (s, [])

/-- The full `onmessage` handler.  `payload = none` models an unparseable
frame (`JSON.parse` throws a SyntaxError before anything else runs); the
first branch is the subscription confirmation `data.id === 1 && data.result`
which stores `data.result` into `subscriptionIdRef`.  The result pairs the
new state with the list of `BalanceUpdate`s emitted to the consumer. -/
def wsOnMessage (s : SessionState) (payload : Option JsValue) (now : Nat) :
    Except JsError (SessionState × List BalanceUpdate) :=
  match payload with
  | none => .error .parseError
  | some data =>
    match data.getField "id" with
    | .error e => .error e
    | .ok idv =>
      if idv.eqNum 1 then
        match data.getField "result" with
        | .error e => .error e
        | .ok resv =>
          if resv.truthy then .ok ({ s with subscriptionId := some resv }, [])
          else wsOnMessageTail s data idv now
      else wsOnMessageTail s data idv now

/-- Platform-level delivery of one frame: if the handler throws, the
exception escapes to the global handler and the component state is
unchanged, with nothing emitted. -/
def deliverMessage (s : SessionState) (payload : Option JsValue) (now : Nat) :
    SessionState × List BalanceUpdate :=
  match wsOnMessage s payload now with
  | .ok r => r
  | .error _ => (s, [])

/-- Sequential delivery of a list of frames (each with its wall-clock
instant): the resulting component state. -/
def runMessages (s : SessionState) : List (Option JsValue × Nat) → SessionState
  | [] => s
  | (p, t) :: rest => runMessages (deliverMessage s p t).1 rest

/-- Sequential delivery of a list of frames: the `BalanceUpdate`s observed
by the consumer, in emission order. -/
def runMessagesEmitted (s : SessionState) : List (Option JsValue × Nat) → List BalanceUpdate
  | [] => []
  | (p, t) :: rest =>
      (deliverMessage s p t).2 ++ runMessagesEmitted (deliverMessage s p t).1 rest

/-! Lifecycle functions (lines 403-644 of the reconnecting variant). -/

/-- `cleanupConnection`: clears the keepalive and reconnect timers, closes
the socket and nulls all handles.  State-wise every handle ends up null
whether or not it was set; an effect is recorded only for a handle that was
actually set, as in the source's `if` guards. -/
def cleanupConnection (s : SessionState) : SessionState × List Effect :=
  ({ s with isIntentionalClose := true, pingPending := false,
            reconnectPending := false, ws := false, wsCanOpen := false,
            wsOpen := false, subscriptionId := none },
   (if s.pingPending then [Effect.clearPing] else []) ++
   (if s.reconnectPending then [Effect.clearReconnect] else []) ++
   (if s.ws then [Effect.closeWs] else []))

/-- `handleStopStreaming`: sets the intentional-close flag, sends a
best-effort `accountUnsubscribe` when both the socket ref and the
subscription id are set, then cleans up and resets the UI state. -/
def handleStopStreaming (s : SessionState) : SessionState × List Effect :=
  let s1 := { s with isIntentionalClose := true }
  let unsubEffs : List Effect :=
    match s1.ws, s1.subscriptionId with
    | true, some v => [Effect.sendUnsubscribe v]
    | _, _ => []
  let r := cleanupConnection s1
  ({ r.1 with isStreaming := false, connectionStatus := .disconnected,
              reconnectAttempts := 0 },
   unsubEffs ++ r.2)

/-- `Math.min(1000 * Math.pow(2, attempts), 30000)` of `attemptReconnect`
(line 524). -/
def backoffMs (attempts : Nat) : Nat :=
  min (1000 * 2 ^ attempts) 30000

/-- `attemptReconnect`.  `snap` is the value of the `reconnectAttempts`
state variable seen by this closure: the handlers of every socket in one
session's chain come from the render that started the session, so they all
read the snapshot captured then (`SessionState.snapAttempts`), while
`setReconnectAttempts (prev => prev + 1)` increments the true counter. -/
def attemptReconnect (snap : Nat) (s : SessionState) : SessionState × List Effect :=
  if s.isIntentionalClose then (s, [])
  else
    ({ s with connectionStatus := .connecting,
              reconnectAttempts := s.reconnectAttempts + 1,
              reconnectPending := true },
     [Effect.scheduleReconnect (backoffMs snap)])

/-- `startPingInterval`: clears any existing keepalive interval and starts
a fresh one. -/
def startPingInterval (s : SessionState) : SessionState × List Effect :=
  ({ s with pingPending := true },
   (if s.pingPending then [Effect.clearPing] else []) ++ [Effect.setPingTimer])

/-- Synchronous body of `subscribeToAccountUpdates` (lines 543-547 and 638):
create the socket, store it in `wsRef`, install the handlers and set the
status to `connecting`.  Any promise a previous call handed out can no
longer be settled by this new socket, hence `startPending := false`. -/
def subscribeConnect (s : SessionState) (walletAddress : String) :
    SessionState × List Effect :=
  ({ s with ws := true, wsAddr := walletAddress, wsCanOpen := true,
            wsOpen := false, startPending := false,
            connectionStatus := .connecting },
   [Effect.openWs walletAddress])

/-- `ws.onopen` (lines 549-575): status `connected`, reset the retry
counter, start the keepalive interval, send the `accountSubscribe` request
and resolve the pending promise (which lets `handleStartStreaming` run
`setIsStreaming(true)` and its `finally` block). -/
def wsOnOpen (s : SessionState) : SessionState × List Effect :=
  let s0 := { s with connectionStatus := ConnStatus.connected,
                     reconnectAttempts := 0, wsCanOpen := false, wsOpen := true }
  let pr := startPingInterval s0
  let effs := pr.2 ++ [Effect.sendSubscribe s.wsAddr]
  if pr.1.startPending then
    ({ pr.1 with isStreaming := true, isLoading := false, startPending := false },
     effs)
  else (pr.1, effs)

/-- `ws.onerror` (lines 617-620): log and show `disconnected`; in this
variant the promise is NOT rejected. -/
def wsOnError (s : SessionState) : SessionState × List Effect :=
  ({ s with connectionStatus := .disconnected }, [])

/-- `ws.onclose` (lines 622-636): status `disconnected`, clear the
keepalive interval, and attempt a reconnect unless the close was
intentional.  The socket that closed can neither open nor carry an OPEN
readyState any more. -/
def wsOnClose (s : SessionState) : SessionState × List Effect :=
  let s0 := { s with connectionStatus := ConnStatus.disconnected,
                     wsCanOpen := false, wsOpen := false }
  let pingEffs := if s0.pingPending then [Effect.clearPing] else []
  let s1 := { s0 with pingPending := false }
  if s1.isIntentionalClose then (s1, pingEffs)
  else
    let r := attemptReconnect s1.snapAttempts s1
    (r.1, pingEffs ++ r.2)

/-- The reconnect `setTimeout` callback (lines 531-538): the timer is
consumed, and if an address is set and the close was not intentional a new
socket chain is started. -/
def reconnectTimerFire (s : SessionState) : SessionState × List Effect :=
  let s0 := { s with reconnectPending := false }
  if (s0.currentAddress != "") && (!s0.isIntentionalClose) then
    subscribeConnect s0 s0.currentAddress
  else (s0, [])

/-- The keepalive `setInterval` callback (lines 498-514): sends `getHealth`
when the socket ref is set and the socket is OPEN. -/
def pingTimerFire (s : SessionState) : SessionState × List Effect :=
  if s.ws && s.wsOpen then (s, [Effect.sendKeepalive]) else (s, [])

/-- JavaScript `String.prototype.trim`: strip whitespace from both ends
(kept kernel-reducible, unlike the builtin `String.trim`). -/
def jsTrim (s : String) : String :=
  ⟨((s.toList.dropWhile Char.isWhitespace).reverse.dropWhile
      Char.isWhitespace).reverse⟩

/-- Outcome of `handleStartStreaming` as seen by its caller:
the two synchronous validation alerts (`Please enter a Solana address`,
`Invalid Solana address`), a caught exception (seed fetch failure or a
synchronous throw while creating the socket, alerted as `Failed to start
streaming`), or a still-pending subscribe handshake. -/
inductive StartOutcome where
  | alertEmptyAddress
  | alertInvalidAddress
  | startFailed (msg : String)
  | pendingOpen
deriving DecidableEq, Repr

/-- The synthetic seed update built by `handleStartStreaming` (lines
447-453): no `slot` field. -/
def mkSeedUpdate (now : Nat) (lamports : Int) : BalanceUpdate :=
  { timestamp := now, balance := some (lamportsToSol lamports),
    lamports := some lamports, slot := none }

/-- `handleStartStreaming` (lines 424-464), up to its first suspension on
the subscribe handshake.  `fetchResult` stands for the external
`getCurrentBalance` HTTP call, `wsCtor` for a synchronous throw while
creating the socket (`getHeliusWsUrl` / `new WebSocket`).  On the success
path the function returns with the handshake still pending
(`StartOutcome.pendingOpen`, `startPending := true`): `setIsStreaming(true)`
and the `finally setIsLoading(false)` only run when the promise settles,
which in this variant happens only in `ws.onopen`.  `snapAttempts` records
the render snapshot of `reconnectAttempts` captured by this session's
closures. -/
def handleStartStreaming (s : SessionState) (address : String)
    (fetchResult : Except String Int) (wsCtor : Except String Unit) (now : Nat) :
    SessionState × List Effect × StartOutcome :=
  if jsTrim address == "" then (s, [], StartOutcome.alertEmptyAddress)
  else if !validateSolanaAddress address then (s, [], StartOutcome.alertInvalidAddress)
  else
    let s0 := { s with isLoading := true, balanceUpdates := [],
                       reconnectAttempts := 0, isIntentionalClose := false,
                       currentAddress := address,
                       snapAttempts := s.reconnectAttempts }
    match fetchResult with
    | .error msg =>
        ({ s0 with isLoading := false }, [Effect.fetchBalance address],
         StartOutcome.startFailed msg)
    | .ok lamports =>
        let s1 := { s0 with currentBalance := some lamports,
                            balanceUpdates := [mkSeedUpdate now lamports] }
        match wsCtor with
        | .error msg =>
            ({ s1 with isLoading := false }, [Effect.fetchBalance address],
             StartOutcome.startFailed msg)
        | .ok _ =>
            let r := subscribeConnect s1 address
            ({ r.1 with startPending := true },
             Effect.fetchBalance address :: r.2, StartOutcome.pendingOpen)

/-! Event-level semantics: the asynchronous triggers that can reach the
component, and traces of them. -/

/-- Asynchronous events: user stop, socket callbacks (possibly from a
socket whose ref was already dropped, for `message`/`error`/`close`), and
timer firings. -/
inductive Event where
  | evStop
  | evOpen
  | evMessage (payload : Option JsValue) (now : Nat)
  | evError
  | evClose
  | evReconnectFire
  | evPingFire

/-- One event step. -/
def step (s : SessionState) : Event → SessionState × List Effect
  | .evStop => handleStopStreaming s
  | .evOpen => wsOnOpen s
  | .evMessage p t => ((deliverMessage s p t).1, [])
  | .evError => wsOnError s
  | .evClose => wsOnClose s
  | .evReconnectFire => reconnectTimerFire s
  | .evPingFire => pingTimerFire s

/-- Whether an event can actually be delivered in a state: `onopen` needs a
socket that is still CONNECTING, a timer can only fire while it is set;
`message`/`error`/`close` events may also come from an old socket. -/
def Event.applicable (s : SessionState) : Event → Bool
  | .evOpen => s.wsCanOpen
  | .evReconnectFire => s.reconnectPending
  | .evPingFire => s.pingPending
  | _ => true

/-- Run a trace of events, collecting all effects in order. -/
def runTrace (s : SessionState) : List Event → SessionState × List Effect
  | [] => (s, [])
  | e :: es =>
      let r1 := step s e
      let r2 := runTrace r1.1 es
      (r2.1, r1.2 ++ r2.2)

/-- Every event of the trace is deliverable at its point. -/
def traceOK (s : SessionState) : List Event → Bool
  | [] => true
  | e :: es => e.applicable s && traceOK (step s e).1 es

/-- All states visited by a trace (including the initial one). -/
def traceStates (s : SessionState) : List Event → List SessionState
  | [] => [s]
  | e :: es => s :: traceStates (step s e).1 es

/-- The delays of the `scheduleReconnect` effects in a list, in order. -/
def scheduledDelays (effs : List Effect) : List Nat :=
  effs.filterMap fun e =>
    match e with
    | Effect.scheduleReconnect d => some d
    | _ => none

/-- `k` consecutive failure cycles: the socket closes (unintentionally)
and the scheduled reconnect timer fires, opening the next socket, which
closes again, and so on — no `onopen` ever intervenes. -/
def failTrace : Nat → List Event
  | 0 => []
  | k + 1 => Event.evClose :: Event.evReconnectFire :: failTrace k

/-- A well-formed `accountNotification` frame carrying integer `lamports`
and `slot`. -/
def mkNotification (lamports slot : Int) : JsValue :=
  JsValue.vObj
    [("jsonrpc", JsValue.vStr "2.0"),
     ("method", JsValue.vStr "accountNotification"),
     ("params", JsValue.vObj
       [("result", JsValue.vObj
         [("context", JsValue.vObj [("slot", JsValue.vNum slot)]),
          ("value", JsValue.vObj [("lamports", JsValue.vNum lamports)])]),
        ("subscription", JsValue.vNum 7)])]

/-- An `accountNotification` frame whose `value` is null (account closed or
non-existent at that slot). -/
def mkNotificationNullValue (slot : Int) : JsValue :=
  JsValue.vObj
    [("jsonrpc", JsValue.vStr "2.0"),
     ("method", JsValue.vStr "accountNotification"),
     ("params", JsValue.vObj
       [("result", JsValue.vObj
         [("context", JsValue.vObj [("slot", JsValue.vNum slot)]),
          ("value", JsValue.vNull)]),
        ("subscription", JsValue.vNum 7)])]

/-- The consumer-side record produced by one well-formed notification. -/
def notifUpdate (item : Int × Int × Nat) : BalanceUpdate :=
  { timestamp := item.2.2, balance := some (lamportsToSol item.1),
    lamports := some item.1, slot := some item.2.1 }

/-- A stream of well-formed notifications `(lamports, slot, timestamp)`. -/
def notifStream (items : List (Int × Int × Nat)) : List (Option JsValue × Nat) :=
  items.map fun item => (some (mkNotification item.1 item.2.1), item.2.2)

/-- The 32-`'1'` base58 string (the system program address): a valid
address. -/
def validAddr58 : String := "11111111111111111111111111111111"

/-- Modelled from the spec: the reconnect delay the spec prescribes before
attempt `n`, `min(base_delay * 2^(n-1), max_delay)` with base 1000 ms and
cap 30000 ms.  Used to compare the code's actual delays against the spec's
formula. -/
def specDelay (n : Nat) : Nat :=
  min (1000 * 2 ^ (n - 1)) 30000

/-- Effects that would indicate a (re)connection attempt: sending an
`accountSubscribe` request or opening a new socket.  `notConnectEffect`
holds for every other effect. -/
def notConnectEffect : Effect → Bool
  | .sendSubscribe _ => false
  | .openWs _ => false
  | _ => true

/-- The resource state guaranteed right after `stop()`: intentional-close
flag set, no pending timers, no socket that could still open, socket ref
cleared, status `disconnected`. -/
def StoppedInv (s : SessionState) : Prop :=
  s.isIntentionalClose = true ∧ s.reconnectPending = false ∧
  s.pingPending = false ∧ s.wsCanOpen = false ∧ s.ws = false ∧
  s.connectionStatus = ConnStatus.disconnected

/-- A mid-session state with both timers pending, used to exercise
`stop()` while a reconnect is pending. -/
def stopWitnessState : SessionState :=
  { initState with
    isStreaming := true
    connectionStatus := .connected
    ws := true
    wsOpen := true
    wsAddr := validAddr58
    currentAddress := validAddr58
    pingPending := true
    reconnectPending := true
    subscriptionId := some (JsValue.vNum 7)
    reconnectAttempts := 2 }

/-- Events thrown at a stopped session: late socket callbacks, another
stop, message frames. -/
def stopWitnessTrace : List Event :=
  [Event.evClose, Event.evStop, Event.evMessage (some (mkNotification 5 9)) 3,
   Event.evError, Event.evMessage none 4]

/-! Helper lemmas about the message handler. -/

/-- Structural facts about every successful run of the tail of the
`onmessage` handler: the history only grows by the emitted updates (at most
one), every emitted balance is recomputed from its lamports, and all
control state is untouched. -/
theorem wsOnMessageTail_ok_spec (s : SessionState) (data idv : JsValue) (t : Nat)
    (s' : SessionState) (us : List BalanceUpdate)
    (h : wsOnMessageTail s data idv t = .ok (s', us)) :
    s'.balanceUpdates = s.balanceUpdates ++ us ∧ us.length ≤ 1 ∧
    (∀ u ∈ us, u.balance = u.lamports.map lamportsToSol) ∧
    s'.isStreaming = s.isStreaming ∧ s'.connectionStatus = s.connectionStatus ∧
    s'.isIntentionalClose = s.isIntentionalClose ∧
    s'.reconnectPending = s.reconnectPending ∧ s'.pingPending = s.pingPending ∧
    s'.wsCanOpen = s.wsCanOpen ∧ s'.ws = s.ws ∧ s'.wsOpen = s.wsOpen ∧
    s'.reconnectAttempts = s.reconnectAttempts ∧ s'.isLoading = s.isLoading ∧
    s'.snapAttempts = s.snapAttempts ∧ s'.currentAddress = s.currentAddress ∧
    s'.startPending = s.startPending ∧ s'.wsAddr = s.wsAddr := by
  unfold wsOnMessageTail at h
  repeat' split at h
  all_goals try simp_all
  obtain ⟨hs, hu⟩ := h
  subst hs
  subst hu
  simp

/-- The same structural facts for the whole `onmessage` handler. -/
theorem wsOnMessage_ok_spec (s : SessionState) (p : Option JsValue) (t : Nat)
    (s' : SessionState) (us : List BalanceUpdate)
    (h : wsOnMessage s p t = .ok (s', us)) :
    s'.balanceUpdates = s.balanceUpdates ++ us ∧ us.length ≤ 1 ∧
    (∀ u ∈ us, u.balance = u.lamports.map lamportsToSol) ∧
    s'.isStreaming = s.isStreaming ∧ s'.connectionStatus = s.connectionStatus ∧
    s'.isIntentionalClose = s.isIntentionalClose ∧
    s'.reconnectPending = s.reconnectPending ∧ s'.pingPending = s.pingPending ∧
    s'.wsCanOpen = s.wsCanOpen ∧ s'.ws = s.ws ∧ s'.wsOpen = s.wsOpen ∧
    s'.reconnectAttempts = s.reconnectAttempts ∧ s'.isLoading = s.isLoading ∧
    s'.snapAttempts = s.snapAttempts ∧ s'.currentAddress = s.currentAddress ∧
    s'.startPending = s.startPending ∧ s'.wsAddr = s.wsAddr := by
  unfold wsOnMessage at h
  repeat' split at h
  all_goals try (exact wsOnMessageTail_ok_spec s _ _ t s' us h)
  all_goals try simp_all
  all_goals obtain ⟨hs, hu⟩ := h
  all_goals subst hs
  all_goals subst hu
  all_goals simp

/-- The platform-level delivery of one frame grows the history exactly by
what it emits (at most one update), recomputes every emitted balance from
its lamports, and leaves all control state unchanged — also when the
handler throws. -/
theorem deliverMessage_spec (s : SessionState) (p : Option JsValue) (t : Nat) :
    (deliverMessage s p t).1.balanceUpdates
        = s.balanceUpdates ++ (deliverMessage s p t).2 ∧
    (deliverMessage s p t).2.length ≤ 1 ∧
    (∀ u ∈ (deliverMessage s p t).2, u.balance = u.lamports.map lamportsToSol) ∧
    (deliverMessage s p t).1.isStreaming = s.isStreaming ∧
    (deliverMessage s p t).1.connectionStatus = s.connectionStatus ∧
    (deliverMessage s p t).1.isIntentionalClose = s.isIntentionalClose ∧
    (deliverMessage s p t).1.reconnectPending = s.reconnectPending ∧
    (deliverMessage s p t).1.pingPending = s.pingPending ∧
    (deliverMessage s p t).1.wsCanOpen = s.wsCanOpen ∧
    (deliverMessage s p t).1.ws = s.ws := by
  unfold deliverMessage
  cases h : wsOnMessage s p t with
  | error e => simp
  | ok r =>
      obtain ⟨s', us⟩ := r
      have hspec := wsOnMessage_ok_spec s p t s' us h
      exact ⟨hspec.1, hspec.2.1, hspec.2.2.1, hspec.2.2.2.1, hspec.2.2.2.2.1,
        hspec.2.2.2.2.2.1, hspec.2.2.2.2.2.2.1, hspec.2.2.2.2.2.2.2.1,
        hspec.2.2.2.2.2.2.2.2.1, hspec.2.2.2.2.2.2.2.2.2.1⟩

/-- Delivering one well-formed notification appends exactly its record. -/
theorem deliverMessage_mkNotification (s : SessionState) (lam sl : Int) (t : Nat) :
    deliverMessage s (some (mkNotification lam sl)) t =
      ({ s with currentBalance := some lam,
                balanceUpdates := s.balanceUpdates ++ [notifUpdate (lam, sl, t)] },
       [notifUpdate (lam, sl, t)]) := rfl

/-- C1 counterexample: the claim says no exception escapes the message
handler on an unparseable payload, but `JSON.parse` is not guarded — on an
unparseable frame the handler throws (here: returns the SyntaxError instead
of a state). -/
theorem c1_counterexample :
    wsOnMessage initState none 0 = Except.error JsError.parseError := rfl

/-- C1 (amended): an unparseable payload makes the handler throw a
SyntaxError, and an `accountNotification` frame lacking the expected
`params` chain makes it throw a TypeError — the exception escapes the
`onmessage` handler.  Any such throw happens before any state write, so
nothing is emitted and the component state (history, streaming flag,
connection status) is exactly unchanged: the session itself survives and
remains streaming. -/
theorem c1_malformed_throws_but_session_survives :
    (∀ s t, wsOnMessage s none t = Except.error JsError.parseError) ∧
    (∀ s t, wsOnMessage s
        (some (JsValue.vObj [("method", JsValue.vStr "accountNotification")])) t
        = Except.error JsError.typeError) ∧
    (∀ s p t e, wsOnMessage s p t = Except.error e →
        deliverMessage s p t = (s, [])) := by
  refine ⟨fun s t => rfl, fun s t => rfl, fun s p t e h => ?_⟩
  simp [deliverMessage, h]

/-- C1 witness: the amended statement at concrete inputs. -/
theorem c1_malformed_throws_but_session_survives_witness :
    wsOnMessage initState
        (some (JsValue.vObj [("method", JsValue.vStr "accountNotification")])) 3
      = Except.error JsError.typeError ∧
    deliverMessage initState none 0 = (initState, []) :=
  ⟨c1_malformed_throws_but_session_survives.2.1 initState 3,
   c1_malformed_throws_but_session_survives.2.2 initState none 0
     JsError.parseError rfl⟩

/-- C6: updates reach the consumer in exactly arrival order.  (i) After any
frame sequence the history is the old history followed by the emitted
updates in emission order; (ii) each delivered frame appends at most one
record at the end and never modifies or removes previous records; (iii) a
stream of well-formed notifications appends exactly one record per
notification, in the delivered order. -/
theorem c6_updates_ordered_append_only :
    (∀ s ms, (runMessages s ms).balanceUpdates
        = s.balanceUpdates ++ runMessagesEmitted s ms) ∧
    (∀ s p t, (deliverMessage s p t).1.balanceUpdates
          = s.balanceUpdates ++ (deliverMessage s p t).2 ∧
        (deliverMessage s p t).2.length ≤ 1) ∧
    (∀ s items, (runMessages s (notifStream items)).balanceUpdates
        = s.balanceUpdates ++ items.map notifUpdate) := by
  refine ⟨?_, ?_, ?_⟩
  · intro s ms
    induction ms generalizing s with
    | nil => simp [runMessages, runMessagesEmitted]
    | cons x rest ih =>
        obtain ⟨p, t⟩ := x
        have hstep := (deliverMessage_spec s p t).1
        simp only [runMessages, runMessagesEmitted, ih, hstep, List.append_assoc]
  · intro s p t
    exact ⟨(deliverMessage_spec s p t).1, (deliverMessage_spec s p t).2.1⟩
  · intro s items
    induction items generalizing s with
    | nil => simp [notifStream, runMessages]
    | cons x rest ih =>
        obtain ⟨lam, sl, t⟩ := x
        have hstep : runMessages s (notifStream ((lam, sl, t) :: rest))
            = runMessages (deliverMessage s (some (mkNotification lam sl)) t).1
                (notifStream rest) := rfl
        rw [hstep, deliverMessage_mkNotification, ih]
        simp

/-- C7: a notification whose `value` is null emits nothing and changes no
state at all (in particular the stored current balance is unchanged) — the
truthiness guard `if (accountInfo)` filters it after the field reads
succeed. -/
theorem c7_null_value_no_update (s : SessionState)
    (data idv mv p r c slv : JsValue) (t : Nat)
    (hid : data.getField "id" = Except.ok idv)
    (h1 : idv.eqNum 1 = false) (h999 : idv.eqNum 999 = false)
    (hm : data.getField "method" = Except.ok mv)
    (hms : mv.eqStr "accountNotification" = true)
    (hp : data.getField "params" = Except.ok p)
    (hr : p.getField "result" = Except.ok r)
    (hv : r.getField "value" = Except.ok JsValue.vNull)
    (hc : r.getField "context" = Except.ok c)
    (hsl : c.getField "slot" = Except.ok slv) :
    wsOnMessage s (some data) t = Except.ok (s, []) := by
  simp [wsOnMessage, wsOnMessageTail, hid, h1, h999, hm, hms, hp, hr, hv, hc,
    hsl, JsValue.truthy]

/-- C7 witness: a concrete null-value notification is a no-op. -/
theorem c7_null_value_no_update_witness :
    wsOnMessage initState (some (mkNotificationNullValue 100)) 7
      = Except.ok (initState, []) :=
  c7_null_value_no_update initState (mkNotificationNullValue 100) _ _ _ _ _ _ 7
    rfl rfl rfl rfl rfl rfl rfl rfl rfl rfl

/-- C8: `stop()` is idempotent from any state — the second call produces
the same state and performs no effect at all (no unsubscribe send, no
close, no timer cancellation), since the first call nulled every handle. -/
theorem c8_stop_idempotent (s : SessionState) :
    handleStopStreaming (handleStopStreaming s).1
      = ((handleStopStreaming s).1, ([] : List Effect)) := rfl

/-- C9: every update emitted by the message handler carries a balance
recomputed from its own lamports field; a successful start seeds exactly
one record carrying the fetched lamports and no slot; a subscription
notification's record carries the notification's slot. -/
theorem c9_balance_derivation_and_slots :
    (∀ s p t s' us, wsOnMessage s p t = Except.ok (s', us) →
       ∀ u ∈ us, u.balance = u.lamports.map lamportsToSol) ∧
    (∀ s addr n now, jsTrim addr ≠ "" → validateSolanaAddress addr = true →
       (handleStartStreaming s addr (Except.ok n) (Except.ok ()) now).1.balanceUpdates
         = [{ timestamp := now, balance := some (lamportsToSol n),
              lamports := some n, slot := none }]) ∧
    (∀ s lam sl t, (deliverMessage s (some (mkNotification lam sl)) t).2
         = [{ timestamp := t, balance := some (lamportsToSol lam),
              lamports := some lam, slot := some sl }]) := by
  refine ⟨?_, ?_, ?_⟩
  · intro s p t s' us h
    exact (wsOnMessage_ok_spec s p t s' us h).2.2.1
  · intro s addr n now htrim hvalid
    simp [handleStartStreaming, subscribeConnect, mkSeedUpdate, hvalid,
      beq_eq_false_iff_ne.mpr htrim]
  · intro s lam sl t
    simp [deliverMessage_mkNotification, notifUpdate]

/-- C9 witness: the statement at concrete inputs. -/
theorem c9_balance_derivation_and_slots_witness :
    (∀ u ∈ [notifUpdate (3, 11, 2)], u.balance = u.lamports.map lamportsToSol) ∧
    (handleStartStreaming initState validAddr58 (Except.ok 7) (Except.ok ()) 4).1.balanceUpdates
      = [{ timestamp := 4, balance := some (lamportsToSol 7),
           lamports := some 7, slot := none }] :=
  ⟨c9_balance_derivation_and_slots.1 initState (some (mkNotification 3 11)) 2
      ({ initState with currentBalance := some 3,
                        balanceUpdates := [notifUpdate (3, 11, 2)] })
      [notifUpdate (3, 11, 2)] rfl,
   c9_balance_derivation_and_slots.2.1 initState validAddr58 7 4
     (by decide) (by decide)⟩

/-- C5: an address failing public-key format validation is rejected
synchronously: the state is unchanged, no effect (no balance fetch, no
socket) is performed, and the caller gets the invalid-address alert (for a
whitespace-only input, the empty-address alert — also a local validation
failure surfaced before any network call). -/
theorem c5_invalid_address_rejected (s : SessionState) (addr : String)
    (fetchResult : Except String Int) (wsCtor : Except String Unit) (now : Nat)
    (h : validateSolanaAddress addr = false) :
    (handleStartStreaming s addr fetchResult wsCtor now).1 = s ∧
    (handleStartStreaming s addr fetchResult wsCtor now).2.1 = [] ∧
    ((handleStartStreaming s addr fetchResult wsCtor now).2.2
        = StartOutcome.alertInvalidAddress ∨
     (jsTrim addr = "" ∧
      (handleStartStreaming s addr fetchResult wsCtor now).2.2
        = StartOutcome.alertEmptyAddress)) := by
  by_cases he : jsTrim addr = ""
  · simp [handleStartStreaming, he]
  · simp [handleStartStreaming, h, beq_eq_false_iff_ne.mpr he]

/-- C5 witness: `"abc"` decodes to fewer than 32 bytes, so start rejects it
with no effect. -/
theorem c5_invalid_address_rejected_witness :
    (handleStartStreaming initState "abc" (Except.ok 0) (Except.ok ()) 0).1
        = initState ∧
    (handleStartStreaming initState "abc" (Except.ok 0) (Except.ok ()) 0).2.1 = [] ∧
    ((handleStartStreaming initState "abc" (Except.ok 0) (Except.ok ()) 0).2.2
        = StartOutcome.alertInvalidAddress ∨
     (jsTrim "abc" = "" ∧
      (handleStartStreaming initState "abc" (Except.ok 0) (Except.ok ()) 0).2.2
        = StartOutcome.alertEmptyAddress)) :=
  c5_invalid_address_rejected initState "abc" (Except.ok 0) (Except.ok ()) 0
    (by decide)

/-- C10: every successful start leaves the history as exactly the one seed
record, whatever the previous session accumulated, and it is still exactly
that after the subscribe handshake completes (`onopen`). -/
theorem c10_start_resets_history (s : SessionState) (addr : String) (n : Int)
    (now : Nat)
    (htrim : jsTrim addr ≠ "") (hvalid : validateSolanaAddress addr = true) :
    (handleStartStreaming s addr (Except.ok n) (Except.ok ()) now).1.balanceUpdates
        = [mkSeedUpdate now n] ∧
    (step (handleStartStreaming s addr (Except.ok n) (Except.ok ()) now).1
        Event.evOpen).1.balanceUpdates = [mkSeedUpdate now n] := by
  constructor
  · simp [handleStartStreaming, subscribeConnect, hvalid,
      beq_eq_false_iff_ne.mpr htrim]
  · simp [handleStartStreaming, subscribeConnect, hvalid,
      beq_eq_false_iff_ne.mpr htrim, step, wsOnOpen, startPingInterval]

/-- Stopping establishes the stopped-resource invariant. -/
theorem stop_establishes_inv (s : SessionState) :
    StoppedInv (handleStopStreaming s).1 :=
  ⟨rfl, rfl, rfl, rfl, rfl, rfl⟩

/-- The stopped-resource invariant is preserved by every deliverable event,
and no such event performs a connection-attempt effect. -/
theorem inv_step (s : SessionState) (e : Event) (hInv : StoppedInv s)
    (happ : e.applicable s = true) :
    StoppedInv (step s e).1 ∧ (step s e).2.all notConnectEffect = true := by
  obtain ⟨h1, h2, h3, h4, h5, h6⟩ := hInv
  cases e with
  | evStop =>
      refine ⟨stop_establishes_inv s, ?_⟩
      simp [step, handleStopStreaming, cleanupConnection, h2, h3, h5,
        notConnectEffect]
  | evOpen => simp [Event.applicable, h4] at happ
  | evMessage p t =>
      have hspec := deliverMessage_spec s p t
      refine ⟨⟨?_, ?_, ?_, ?_, ?_, ?_⟩, ?_⟩ <;> simp_all [step, StoppedInv]
  | evError => exact ⟨⟨h1, h2, h3, h4, h5, rfl⟩, by simp [step, wsOnError]⟩
  | evClose =>
      refine ⟨⟨?_, ?_, ?_, ?_, ?_, ?_⟩, ?_⟩ <;>
        simp [step, wsOnClose, h1, h2, h3, h5]
  | evReconnectFire => simp [Event.applicable, h2] at happ
  | evPingFire => simp [Event.applicable, h3] at happ

/-- Along any deliverable trace from a stopped state, no connection-attempt
effect occurs and the status stays `disconnected`. -/
theorem inv_trace (tr : List Event) :
    ∀ s, StoppedInv s → traceOK s tr = true →
      (runTrace s tr).2.all notConnectEffect = true ∧
      ∀ s' ∈ traceStates s tr, s'.connectionStatus = ConnStatus.disconnected := by
  induction tr with
  | nil =>
      intro s hInv _
      exact ⟨rfl, by simpa [traceStates] using hInv.2.2.2.2.2⟩
  | cons e es ih =>
      intro s hInv hok
      simp only [traceOK, Bool.and_eq_true] at hok
      obtain ⟨happ, hrest⟩ := hok
      obtain ⟨hInv', hall⟩ := inv_step s e hInv happ
      obtain ⟨ih1, ih2⟩ := ih (step s e).1 hInv' hrest
      constructor
      · simp [runTrace, List.all_append, hall, ih1]
      · intro s' hs'
        simp only [traceStates, List.mem_cons] at hs'
        rcases hs' with h | h
        · subst h; exact hInv.2.2.2.2.2
        · exact ih2 s' h

/-- C4: after `stop()` from any state, no later deliverable event sequence
sends a subscribe request or opens a socket, and no visited state shows
`connecting`; moreover `stop()` itself clears a pending reconnect timer
(cancelling it when one was pending). -/
theorem c4_stop_suppresses_reconnect (s : SessionState) (tr : List Event)
    (hok : traceOK (handleStopStreaming s).1 tr = true) :
    ((runTrace (handleStopStreaming s).1 tr).2.all notConnectEffect = true ∧
     ∀ s' ∈ traceStates (handleStopStreaming s).1 tr,
       s'.connectionStatus ≠ ConnStatus.connecting) ∧
    (handleStopStreaming s).1.reconnectPending = false ∧
    (s.reconnectPending = true →
      Effect.clearReconnect ∈ (handleStopStreaming s).2) := by
  obtain ⟨ha, hb⟩ := inv_trace tr (handleStopStreaming s).1
    (stop_establishes_inv s) hok
  refine ⟨⟨ha, fun s' hs' => ?_⟩, rfl, fun hp => ?_⟩
  · rw [hb s' hs']; simp
  · simp [handleStopStreaming, cleanupConnection, hp]

/-- C4 witness: stop while streaming with a reconnect pending, then a late
close, a second stop, a notification and an error from the dead socket. -/
theorem c4_stop_suppresses_reconnect_witness :
    ((runTrace (handleStopStreaming stopWitnessState).1 stopWitnessTrace).2.all
        notConnectEffect = true ∧
     ∀ s' ∈ traceStates (handleStopStreaming stopWitnessState).1 stopWitnessTrace,
       s'.connectionStatus ≠ ConnStatus.connecting) ∧
    (handleStopStreaming stopWitnessState).1.reconnectPending = false ∧
    (stopWitnessState.reconnectPending = true →
      Effect.clearReconnect ∈ (handleStopStreaming stopWitnessState).2) :=
  c4_stop_suppresses_reconnect stopWitnessState stopWitnessTrace (by decide)

/-- An unintentional close clears the keepalive, schedules a reconnect
after `backoffMs` of the render-snapshot counter, and increments the true
counter. -/
theorem wsOnClose_not_intentional (s : SessionState)
    (h : s.isIntentionalClose = false) :
    step s Event.evClose =
      ({ s with
         connectionStatus := ConnStatus.connecting
         wsCanOpen := false
         wsOpen := false
         pingPending := false
         reconnectAttempts := s.reconnectAttempts + 1
         reconnectPending := true },
       (if s.pingPending then [Effect.clearPing] else []) ++
         [Effect.scheduleReconnect (backoffMs s.snapAttempts)]) := by
  simp [step, wsOnClose, attemptReconnect, h]

/-- A reconnect timer firing with an address set and no intentional close
opens the next socket. -/
theorem reconnectFire_proceeds (s : SessionState)
    (h1 : s.isIntentionalClose = false) (h2 : s.currentAddress ≠ "") :
    step s Event.evReconnectFire =
      ({ s with
         reconnectPending := false
         ws := true
         wsAddr := s.currentAddress
         wsCanOpen := true
         wsOpen := false
         startPending := false
         connectionStatus := ConnStatus.connecting },
       [Effect.openWs s.currentAddress]) := by
  simp [step, reconnectTimerFire, subscribeConnect, h1, bne_iff_ne, h2]

/-- Over `k` consecutive failure cycles, every scheduled delay equals
`backoffMs` of the unchanging render snapshot, while the true counter
advances by one per failure. -/
theorem failTrace_spec (k : Nat) :
    ∀ s, s.isIntentionalClose = false → s.currentAddress ≠ "" →
      scheduledDelays (runTrace s (failTrace k)).2
          = List.replicate k (backoffMs s.snapAttempts) ∧
      (runTrace s (failTrace k)).1.reconnectAttempts
          = s.reconnectAttempts + k := by
  induction k with
  | zero =>
      intro s h1 h2
      simp [failTrace, runTrace, scheduledDelays]
  | succ k ih =>
      intro s h1 h2
      have e1 := wsOnClose_not_intentional s h1
      have e2 := reconnectFire_proceeds
        { s with
          connectionStatus := ConnStatus.connecting
          wsCanOpen := false
          wsOpen := false
          pingPending := false
          reconnectAttempts := s.reconnectAttempts + 1
          reconnectPending := true } h1 h2
      obtain ⟨ihd, iha⟩ := ih
        { s with
          connectionStatus := ConnStatus.connecting
          wsCanOpen := true
          wsOpen := false
          pingPending := false
          reconnectAttempts := s.reconnectAttempts + 1
          reconnectPending := false
          ws := true
          wsAddr := s.currentAddress
          startPending := false } h1 h2
      constructor
      · simp only [failTrace, runTrace, e1, e2] at ihd ⊢
        cases hp : s.pingPending <;>
          simp_all [scheduledDelays, List.filterMap_append, List.replicate_succ]
      · simp only [failTrace, runTrace, e1, e2] at iha ⊢
        simp_all
        omega

/-- C3 counterexample: the claim prescribes `min(1000 * 2^(n-1), 30000)`
for attempt `n`.  After a fresh start, two consecutive failure cycles both
schedule 1000 ms — the second delay is 1000, not the prescribed
`specDelay 2 = 2000` — because `attemptReconnect` reads the render-closure
snapshot of the counter, not the incremented state. -/
theorem c3_counterexample :
    scheduledDelays (runTrace
        (handleStartStreaming initState validAddr58 (Except.ok 5) (Except.ok ()) 0).1
        (failTrace 2)).2 = [1000, 1000] ∧
    [1000, 1000] ≠ [specDelay 1, specDelay 2] :=
  ⟨by decide, by decide⟩

/-- C3 (amended): the counter is incremented on each failed attempt and
reset to 0 on a successful open, and each reconnect is scheduled after
`min(1000 * 2^snap, 30000)` ms — but `snap` is the render snapshot of the
counter captured when the session's socket chain was created, which never
changes across the chain.  Absent an intervening success all consecutive
delays are therefore equal (constant 1000 ms for a session started with a
zero counter) instead of growing exponentially. -/
theorem c3_backoff_behavior :
    (∀ snap s, s.isIntentionalClose = false →
       attemptReconnect snap s =
         ({ s with
            connectionStatus := ConnStatus.connecting
            reconnectAttempts := s.reconnectAttempts + 1
            reconnectPending := true },
          [Effect.scheduleReconnect (backoffMs snap)])) ∧
    (∀ s k, s.isIntentionalClose = false → s.currentAddress ≠ "" →
       scheduledDelays (runTrace s (failTrace k)).2
         = List.replicate k (backoffMs s.snapAttempts)) ∧
    (∀ s k, s.isIntentionalClose = false → s.currentAddress ≠ "" →
       (runTrace s (failTrace k)).1.reconnectAttempts
         = s.reconnectAttempts + k) ∧
    (∀ s, (wsOnOpen s).1.reconnectAttempts = 0) ∧
    (∀ a, backoffMs a = min (1000 * 2 ^ a) 30000) := by
  refine ⟨?_, ?_, ?_, ?_, fun a => rfl⟩
  · intro snap s h
    simp [attemptReconnect, h]
  · intro s k h1 h2
    exact (failTrace_spec k s h1 h2).1
  · intro s k h1 h2
    exact (failTrace_spec k s h1 h2).2
  · intro s
    simp only [wsOnOpen, startPingInterval]
    cases hsp : s.startPending <;> simp [hsp]

/-- C3 witness: three failure cycles after a fresh start all schedule the
snapshot delay, which is 1000 ms each time. -/
theorem c3_backoff_behavior_witness :
    scheduledDelays (runTrace
        (handleStartStreaming initState validAddr58 (Except.ok 5) (Except.ok ()) 0).1
        (failTrace 3)).2
      = List.replicate 3 (backoffMs
          (handleStartStreaming initState validAddr58 (Except.ok 5)
            (Except.ok ()) 0).1.snapAttempts) ∧
    List.replicate 3 (backoffMs
        (handleStartStreaming initState validAddr58 (Except.ok 5)
          (Except.ok ()) 0).1.snapAttempts)
      = [1000, 1000, 1000] :=
  ⟨c3_backoff_behavior.2.1
      (handleStartStreaming initState validAddr58 (Except.ok 5) (Except.ok ()) 0).1
      3 rfl (by decide),
   by decide⟩

/-- C2 counterexample: the claim says a start whose transport fails before
the handshake leaves the session in Idle with no reconnect scheduled.  From
a fresh state, after a successful seed fetch the socket closes before
opening: the `onclose` handler schedules a 1 s reconnect (the
intentional-close flag was cleared by `start()`), a reconnect timer is
pending, and the caller is still stuck loading — not Idle. -/
theorem c2_counterexample :
    (step (handleStartStreaming initState validAddr58 (Except.ok 5) (Except.ok ()) 0).1
        Event.evClose).2 = [Effect.scheduleReconnect 1000] ∧
    (step (handleStartStreaming initState validAddr58 (Except.ok 5) (Except.ok ()) 0).1
        Event.evClose).1.reconnectPending = true ∧
    (step (handleStartStreaming initState validAddr58 (Except.ok 5) (Except.ok ()) 0).1
        Event.evClose).1.isLoading = true :=
  ⟨rfl, rfl, rfl⟩

/-- C2 (amended): (i) a failed seed fetch is surfaced to the caller, leaves
the streaming flag and reconnect timers untouched and performs no socket
open; (ii) a synchronous socket-construction failure is likewise surfaced
with no reconnect; (iii) but when the transport fails asynchronously before
`onopen`, the handshake promise never settles (onerror does not reject):
the caller is never answered (`isLoading` stays true, the promise stays
pending) and the `onclose` handler schedules a 1 s reconnect, so the failed
initial session does enter the reconnect loop. -/
theorem c2_start_failure_behavior :
    (∀ s addr msg now, jsTrim addr ≠ "" → validateSolanaAddress addr = true →
       (handleStartStreaming s addr (Except.error msg) (Except.ok ()) now).2.2
           = StartOutcome.startFailed msg ∧
       (handleStartStreaming s addr (Except.error msg) (Except.ok ()) now).2.1
           = [Effect.fetchBalance addr] ∧
       (handleStartStreaming s addr (Except.error msg) (Except.ok ()) now).1.isStreaming
           = s.isStreaming ∧
       (handleStartStreaming s addr (Except.error msg) (Except.ok ()) now).1.reconnectPending
           = s.reconnectPending ∧
       (handleStartStreaming s addr (Except.error msg) (Except.ok ()) now).1.ws = s.ws ∧
       (handleStartStreaming s addr (Except.error msg) (Except.ok ()) now).1.isLoading
           = false) ∧
    (∀ s addr n msg now, jsTrim addr ≠ "" → validateSolanaAddress addr = true →
       (handleStartStreaming s addr (Except.ok n) (Except.error msg) now).2.2
           = StartOutcome.startFailed msg ∧
       (handleStartStreaming s addr (Except.ok n) (Except.error msg) now).2.1
           = [Effect.fetchBalance addr] ∧
       (handleStartStreaming s addr (Except.ok n) (Except.error msg) now).1.reconnectPending
           = s.reconnectPending ∧
       (handleStartStreaming s addr (Except.ok n) (Except.error msg) now).1.isLoading
           = false) ∧
    (∀ s addr n now, jsTrim addr ≠ "" → validateSolanaAddress addr = true →
       s.pingPending = false → s.reconnectAttempts = 0 →
       (handleStartStreaming s addr (Except.ok n) (Except.ok ()) now).2.2
           = StartOutcome.pendingOpen ∧
       (handleStartStreaming s addr (Except.ok n) (Except.ok ()) now).1.startPending
           = true ∧
       (handleStartStreaming s addr (Except.ok n) (Except.ok ()) now).1.isLoading
           = true ∧
       (step (handleStartStreaming s addr (Except.ok n) (Except.ok ()) now).1
           Event.evClose).2 = [Effect.scheduleReconnect 1000] ∧
       (step (handleStartStreaming s addr (Except.ok n) (Except.ok ()) now).1
           Event.evClose).1.reconnectPending = true ∧
       (step (handleStartStreaming s addr (Except.ok n) (Except.ok ()) now).1
           Event.evClose).1.isLoading = true ∧
       (step (handleStartStreaming s addr (Except.ok n) (Except.ok ()) now).1
           Event.evClose).1.startPending = true) := by
  refine ⟨?_, ?_, ?_⟩
  · intro s addr msg now htrim hvalid
    simp [handleStartStreaming, hvalid, beq_eq_false_iff_ne.mpr htrim]
  · intro s addr n msg now htrim hvalid
    simp [handleStartStreaming, hvalid, beq_eq_false_iff_ne.mpr htrim]
  · intro s addr n now htrim hvalid hping hatt
    refine ⟨?_, ?_, ?_, ?_, ?_, ?_, ?_⟩ <;>
      simp [handleStartStreaming, subscribeConnect, hvalid,
        beq_eq_false_iff_ne.mpr htrim, step, wsOnClose, attemptReconnect,
        hping, hatt, backoffMs]

/-- C2 witness: the amended statement at concrete inputs — the seed-fetch
failure is surfaced, and after an async transport failure the start promise
is still pending. -/
theorem c2_start_failure_behavior_witness :
    (handleStartStreaming initState validAddr58 (Except.error "fetch failed")
        (Except.ok ()) 0).2.2 = StartOutcome.startFailed "fetch failed" ∧
    (step (handleStartStreaming initState validAddr58 (Except.ok 5) (Except.ok ()) 0).1
        Event.evClose).1.startPending = true :=
  ⟨(c2_start_failure_behavior.1 initState validAddr58 "fetch failed" 0
      (by decide) (by decide)).1,
   (c2_start_failure_behavior.2.2 initState validAddr58 5 0
      (by decide) (by decide) rfl rfl).2.2.2.2.2.2⟩

/-- C10 witness: a concrete restart from a state with prior history. -/
theorem c10_start_resets_history_witness :
    (handleStartStreaming
        { initState with balanceUpdates := [notifUpdate (1, 2, 3), notifUpdate (4, 5, 6)] }
        validAddr58 (Except.ok 9) (Except.ok ()) 1).1.balanceUpdates
      = [mkSeedUpdate 1 9] ∧
    (step (handleStartStreaming
        { initState with balanceUpdates := [notifUpdate (1, 2, 3), notifUpdate (4, 5, 6)] }
        validAddr58 (Except.ok 9) (Except.ok ()) 1).1 Event.evOpen).1.balanceUpdates
      = [mkSeedUpdate 1 9] :=
  c10_start_resets_history
    { initState with balanceUpdates := [notifUpdate (1, 2, 3), notifUpdate (4, 5, 6)] }
    validAddr58 9 1 (by decide) (by decide)
